import Mathlib

/-!
Shallow embedding of the ICN identity-validation and signature-trust pipeline.

Source layout:
* `src/identity/service.py`      — `IdentityService` (DID document validation,
  public-key extraction, signature verification entry point).
* `src/identity/signature.py`    — `SignatureVerifier` (algorithm dispatch).
* `src/consensus/validation.py`  — `Validator` (transaction/proposal/block).
* `src/consensus/engine.py`      — `ConsensusEngine` (pending pools).
* `src/src/blockchain/validation.py`, `src/src/federation/federation.py`,
  `src/src/identity/identity_service.py` — the blockchain-side
  `ValidationService` pipeline.

Python conventions used throughout the embedding:
* A fallible Python computation is `Except PyErr α`; an uncaught exception is
  `.error e`.  Attribute access on an object that lacks the attribute raises
  `AttributeError`; we model an optional attribute as `Option` and the access
  as `pyAttr`.
* Calls into the external `cryptography` / `icn_crypto` libraries are modelled
  as boolean oracles carried as explicit parameters; the repository code never
  depends on anything about them except their boolean outcome (their own
  exceptions are caught at each call site in the source).
* Python strings stand for both `str` and `bytes` values; none of the claims
  distinguishes the two.
-/

/-- Kinds of Python exceptions that the embedded code can raise. -/
inductive PyErr where
  | attributeError
  | valueError
  | typeError
deriving DecidableEq, Repr

/-- Attribute (or mandatory value) access: `none` models an object without the
attribute, on which Python raises `AttributeError`. -/
def pyAttr {α : Type} : Option α → Except PyErr α
  | none => .error .attributeError
  | some a => .ok a

/-- Python `s.startswith(p)` (defined on the character lists so that concrete
instances reduce inside the kernel). -/
def pyStartsWith (s p : String) : Bool := p.data.isPrefixOf s.data

/-- Python `s[1:]`. -/
def pyDropFirst (s : String) : String := ⟨s.data.drop 1⟩

/-- Python `s.lower()` (per-character lowering; the algorithm tags involved
are ASCII). -/
def pyLower (s : String) : String := ⟨s.data.map Char.toLower⟩

/-- Python string comparison: lexicographic on code points.  `sorted(...)` and
`sort_keys=True` order strings this way. -/
def lexLE : List Char → List Char → Bool
  | [], _ => true
  | _ :: _, [] => false
  | a :: as, b :: bs =>
    if a.toNat < b.toNat then true
    else if b.toNat < a.toNat then false
    else lexLE as bs

/-! ## src/identity — DID documents and the identity service -/

/-- The `serviceEndpoint` entry of a verification method: absent (Python
`method.get('serviceEndpoint', [])` then yields `[]`), a single string, or a
list of strings — the two shapes `validate_did_document` distinguishes with
`isinstance(service_refs, list)`. -/
inductive Identity.SvcRefs where
  | absent
  | one (s : String)
  | many (l : List String)
deriving DecidableEq, Repr

/-- A verification method dictionary (src/identity/service.py).  Each `Option`
field models presence of the corresponding key; present values are strings, as
in every document the repository builds. -/
structure Identity.VerificationMethod where
  id : Option String
  type : Option String
  controller : Option String
  publicKeyMultibase : Option String
  serviceEndpoint : Identity.SvcRefs
deriving DecidableEq, Repr

/-- A service dictionary: only its `id` is ever read (`service.get('id')`). -/
structure Identity.Service where
  id : Option String
deriving DecidableEq, Repr

/-- A DID document as consumed by `IdentityService`
(src/identity/service.py): `verificationMethod` and `service` model
`.get(..., [])` with absent keys collapsed to `[]`. -/
structure Identity.DidDocument where
  id : Option String
  verificationMethod : List Identity.VerificationMethod
  service : List Identity.Service
deriving DecidableEq, Repr

/-- The per-method required-field conjunction of
`IdentityService.validate_did_document`:
`all(k in method for k in ['id', 'type', 'controller', 'publicKeyMultibase'])`. -/
def Identity.vmFieldsOk (m : Identity.VerificationMethod) : Bool :=
  m.id.isSome && m.type.isSome && m.controller.isSome && m.publicKeyMultibase.isSome

/-- The service-reference loop body of `validate_did_document`: a list-valued
`serviceEndpoint` must have every element among the declared service ids; a
single truthy (non-empty) string must itself be among them. -/
def Identity.svcRefsOk (ids : List (Option String)) : Identity.SvcRefs → Bool
  | .absent => true
  | .many l => l.all (fun r => ids.contains (some r))
  | .one s => if s = "" then true else ids.contains (some s)

/-- `IdentityService.validate_did_document` (src/identity/service.py lines
7-52).  `if not did_document.get('id')` is falsy exactly when the key is
absent or its value is the empty string, i.e. when `doc.id.getD "" = ""`.
The controller/id relationship (lines 34-37) only logs a warning and does not
influence the result, so it does not appear here. -/
def Identity.IdentityService.validate_did_document (doc : Identity.DidDocument) : Bool :=
  if doc.id.getD "" = "" then false
  else if doc.verificationMethod.isEmpty then false
  else if !(doc.verificationMethod.all Identity.vmFieldsOk) then false
  else doc.verificationMethod.all
    (fun m => Identity.svcRefsOk (doc.service.map (fun s => s.id)) m.serviceEndpoint)

/-- Multibase stripping performed in `get_public_key`:
`if public_key.startswith('z'): return public_key[1:]`. -/
def Identity.stripMultibase (k : String) : String :=
  if pyStartsWith k "z" then pyDropFirst k else k

/-- The key-extraction loop of `get_public_key`: the first verification method
carrying a `publicKeyMultibase` field yields its key, multibase-stripped. -/
def Identity.firstKey : List Identity.VerificationMethod → Option String
  | [] => none
  | m :: ms =>
    match m.publicKeyMultibase with
    | some k => some (Identity.stripMultibase k)
    | none => Identity.firstKey ms

/-- `IdentityService.get_public_key` (src/identity/service.py lines 54-77).

Modelled from the spec: `resolve_did` is a stub (`pass`) in the source; per the
spec's Identity Resolver contract (§4.3, `resolve(did) -> DID Document |
NotFound`) it is carried as an explicit parameter `resolve`. -/
def Identity.IdentityService.get_public_key
    (resolve : String → Option Identity.DidDocument) (did : String) : Option String :=
  match resolve did with
  | none => none
  | some doc =>
    if Identity.IdentityService.validate_did_document doc then
      Identity.firstKey doc.verificationMethod
    else none

/-- `IdentityService.verify_signature` (src/identity/service.py lines 79-96).

When no (truthy) public key is obtained the function logs and returns `False`.
When a key is found, line 96 evaluates
`SignatureVerifier.verify_signature(message, signature, public_key)`; the
`SignatureVerifier` imported there (src/identity/signature.py) defines only
`verify`, `_verify_ed25519`, `_verify_rsa` and `calculate_fingerprint` — it has
no attribute `verify_signature` (that name exists only on the unrelated class
in src/federation/signature.py), so the attribute lookup raises
`AttributeError`, which nothing in `verify_signature` catches.  An empty-string
key is falsy in Python (`if not public_key`), hence the `k = ""` branch. -/
def Identity.IdentityService.verify_signature
    (resolve : String → Option Identity.DidDocument)
    (did message signature : String) : Except PyErr Bool :=
  match Identity.IdentityService.get_public_key resolve did with
  | none => .ok false
  | some k =>
    if k = "" then .ok false
    else .error .attributeError

/-- `IdentityService.verify_did` (src/identity/service.py lines 98-109). -/
def Identity.IdentityService.verify_did
    (resolve : String → Option Identity.DidDocument) (did : String) : Bool :=
  match resolve did with
  | none => false
  | some doc => Identity.IdentityService.validate_did_document doc

/-- Boolean oracles for the external `cryptography`-library verification
routines wrapped by `SignatureVerifier._verify_ed25519` and `_verify_rsa`
(src/identity/signature.py lines 44-107).  Both wrappers catch every exception
of the library and return a boolean, so each is modelled as a total boolean
function of (message, signature, public key). -/
structure Identity.CryptoOracle where
  ed25519Verify : String → String → String → Bool
  rsaVerify : String → String → String → Bool

/-- `SignatureVerifier.verify` (src/identity/signature.py lines 19-42): a
closed dispatch on `key_type.lower()` over `'ed25519'` and `'rsa'`; any other
tag logs `Unsupported key type` and returns `False`.  The surrounding
`try/except` catches every exception, so the function is total. -/
def Identity.SignatureVerifier.verify (o : Identity.CryptoOracle)
    (message signature publicKey keyType : String) : Bool :=
  if pyLower keyType = "ed25519" then o.ed25519Verify message signature publicKey
  else if pyLower keyType = "rsa" then o.rsaVerify message signature publicKey
  else false

/-! ## src/consensus — Validator and ConsensusEngine

The consensus entities are duck-typed Python objects; the embedding gives each
one a slot for every attribute the code (or a claim) touches.  A `none` slot
is an object without that attribute: `hasattr` is `Option.isSome` and reading
it raises `AttributeError`.  `get_message_for_signing` is a method; `some m`
models a method returning `m`, `none` an object without the method (calling it
raises `AttributeError`). -/

/-- A consensus-layer transaction object.  The code reads `id`, `sender`,
`signature` and calls `get_message_for_signing`; `signer` and `content` are
attribute slots the consensus code never touches (the spec's transaction
shape names them). -/
structure Consensus.TxObj where
  id : Option String
  sender : Option String
  signer : Option String
  content : Option String
  signature : Option String
  get_message_for_signing : Option String
deriving DecidableEq, Repr

/-- A consensus-layer proposal object. -/
structure Consensus.ProposalObj where
  id : Option String
  proposer : Option String
  signature : Option String
  transactions : Option (List Consensus.TxObj)
  get_message_for_signing : Option String
deriving DecidableEq, Repr

/-- A consensus-layer block object. -/
structure Consensus.BlockObj where
  height : Option Nat
  producer : Option String
  signature : Option String
  proposals : Option (List Consensus.ProposalObj)
  get_message_for_signing : Option String
deriving DecidableEq, Repr

/-- `Validator._validate_transaction_format` (src/consensus/validation.py
lines 115-127): `all(hasattr(transaction, f) for f in ['id', 'sender',
'signature'])`. -/
def Consensus.Validator.validate_transaction_format (t : Consensus.TxObj) : Bool :=
  t.id.isSome && t.sender.isSome && t.signature.isSome

/-- `Validator._validate_proposal_format` (lines 129-141): required attributes
`['id', 'proposer', 'signature', 'transactions']`. -/
def Consensus.Validator.validate_proposal_format (p : Consensus.ProposalObj) : Bool :=
  p.id.isSome && p.proposer.isSome && p.signature.isSome && p.transactions.isSome

/-- `Validator._validate_block_format` (lines 143-155): required attributes
`['height', 'producer', 'signature', 'proposals']`. -/
def Consensus.Validator.validate_block_format (b : Consensus.BlockObj) : Bool :=
  b.height.isSome && b.producer.isSome && b.signature.isSome && b.proposals.isSome

/-- `Validator.validate_transaction` (src/consensus/validation.py lines
17-45).  No `try/except` protects the body: reading `transaction.sender`,
calling `transaction.get_message_for_signing()` (not covered by the format
check) and the identity service's own `AttributeError` all propagate to the
caller. -/
def Consensus.Validator.validate_transaction
    (resolve : String → Option Identity.DidDocument)
    (t : Consensus.TxObj) : Except PyErr Bool :=
  if !Consensus.Validator.validate_transaction_format t then .ok false
  else match t.sender with
  | none => .error .attributeError
  | some sender =>
    match t.get_message_for_signing with
    | none => .error .attributeError
    | some message =>
      match t.signature with
      | none => .error .attributeError
      | some sig =>
        match Identity.IdentityService.verify_signature resolve sender message sig with
        | .error e => .error e
        | .ok ok => if !ok then .ok false else .ok true

/-- The transaction loop of `Validator.validate_proposal` (lines 73-77).  Its
failure branch logs `f"Invalid transaction {tx.id} in proposal {proposal.id}"`,
reading `tx.id` and the proposal's `id` — either read raises if the attribute
is absent. -/
def Consensus.txLoop (resolve : String → Option Identity.DidDocument)
    (proposalId : Option String) : List Consensus.TxObj → Except PyErr Bool
  | [] => .ok true
  | t :: ts =>
    match Consensus.Validator.validate_transaction resolve t with
    | .error e => .error e
    | .ok true => Consensus.txLoop resolve proposalId ts
    | .ok false =>
      match pyAttr t.id with
      | .error e => .error e
      | .ok _ =>
        match pyAttr proposalId with
        | .error e => .error e
        | .ok _ => .ok false

/-- `Validator.validate_proposal` (src/consensus/validation.py lines 47-79). -/
def Consensus.Validator.validate_proposal
    (resolve : String → Option Identity.DidDocument)
    (p : Consensus.ProposalObj) : Except PyErr Bool :=
  if !Consensus.Validator.validate_proposal_format p then .ok false
  else match p.proposer with
  | none => .error .attributeError
  | some proposer =>
    match p.get_message_for_signing with
    | none => .error .attributeError
    | some message =>
      match p.signature with
      | none => .error .attributeError
      | some sig =>
        match Identity.IdentityService.verify_signature resolve proposer message sig with
        | .error e => .error e
        | .ok ok =>
          if !ok then .ok false
          else match p.transactions with
          | none => .error .attributeError
          | some txs => Consensus.txLoop resolve p.id txs

/-- The proposal loop of `Validator.validate_block` (lines 107-111); its
failure branch reads `proposal.id` and `block.height`. -/
def Consensus.proposalLoop (resolve : String → Option Identity.DidDocument)
    (blockHeight : Option Nat) : List Consensus.ProposalObj → Except PyErr Bool
  | [] => .ok true
  | p :: ps =>
    match Consensus.Validator.validate_proposal resolve p with
    | .error e => .error e
    | .ok true => Consensus.proposalLoop resolve blockHeight ps
    | .ok false =>
      match pyAttr p.id with
      | .error e => .error e
      | .ok _ =>
        match pyAttr blockHeight with
        | .error e => .error e
        | .ok _ => .ok false

/-- `Validator.validate_block` (src/consensus/validation.py lines 81-113). -/
def Consensus.Validator.validate_block
    (resolve : String → Option Identity.DidDocument)
    (b : Consensus.BlockObj) : Except PyErr Bool :=
  if !Consensus.Validator.validate_block_format b then .ok false
  else match b.producer with
  | none => .error .attributeError
  | some producer =>
    match b.get_message_for_signing with
    | none => .error .attributeError
    | some message =>
      match b.signature with
      | none => .error .attributeError
      | some sig =>
        match Identity.IdentityService.verify_signature resolve producer message sig with
        | .error e => .error e
        | .ok ok =>
          if !ok then .ok false
          else match b.proposals with
          | none => .error .attributeError
          | some ps => Consensus.proposalLoop resolve b.height ps

/-- Mutable state of `ConsensusEngine` (src/consensus/engine.py lines 7-19):
the two pending pools. -/
structure Consensus.ConsensusEngine where
  pending_transactions : List Consensus.TxObj
  pending_proposals : List Consensus.ProposalObj
deriving DecidableEq, Repr

/-- `ConsensusEngine.add_transaction` (src/consensus/engine.py lines 21-37).
Both branches format a log message reading `transaction.id`; in the success
branch the append precedes the read (and validation guarantees `id` exists),
in the failure branch an absent `id` raises `AttributeError` before `False`
can be returned.  The result pairs the returned boolean with the engine state
after the call; on `.error` the pool was not (observably) changed, since every
raising path precedes the append or follows a successful append whose state is
unreachable by the caller. -/
def Consensus.ConsensusEngine.add_transaction
    (resolve : String → Option Identity.DidDocument)
    (e : Consensus.ConsensusEngine) (t : Consensus.TxObj) :
    Except PyErr (Bool × Consensus.ConsensusEngine) :=
  match Consensus.Validator.validate_transaction resolve t with
  | .error err => .error err
  | .ok true =>
    match t.id with
    | none => .error .attributeError
    | some _ =>
      .ok (true, { e with pending_transactions := e.pending_transactions ++ [t] })
  | .ok false =>
    match t.id with
    | none => .error .attributeError
    | some _ => .ok (false, e)

/-- `ConsensusEngine.add_proposal` (src/consensus/engine.py lines 39-55). -/
def Consensus.ConsensusEngine.add_proposal
    (resolve : String → Option Identity.DidDocument)
    (e : Consensus.ConsensusEngine) (p : Consensus.ProposalObj) :
    Except PyErr (Bool × Consensus.ConsensusEngine) :=
  match Consensus.Validator.validate_proposal resolve p with
  | .error err => .error err
  | .ok true =>
    match p.id with
    | none => .error .attributeError
    | some _ =>
      .ok (true, { e with pending_proposals := e.pending_proposals ++ [p] })
  | .ok false =>
    match p.id with
    | none => .error .attributeError
    | some _ => .ok (false, e)

/-- `ConsensusEngine.add_block` (src/consensus/engine.py lines 84-101): it
only validates (block persistence is an unimplemented comment) and logs
`block.height` in both branches. -/
def Consensus.ConsensusEngine.add_block
    (resolve : String → Option Identity.DidDocument)
    (b : Consensus.BlockObj) : Except PyErr Bool :=
  match Consensus.Validator.validate_block resolve b with
  | .error err => .error err
  | .ok true =>
    match b.height with
    | none => .error .attributeError
    | some _ => .ok true
  | .ok false =>
    match b.height with
    | none => .error .attributeError
    | some _ => .ok false

/-! ## Canonical JSON serialization

`json.dumps(data, sort_keys=True).encode('utf-8')` is the canonicalization
used by `ValidationService._serialize_for_verification`
(src/src/blockchain/validation.py lines 177-185) and by
`SignatureVerifier.calculate_fingerprint` (src/identity/signature.py lines
109-128).  The embedding keeps what the determinism claim depends on: objects
are rendered with their keys sorted lexicographically, with Python's default
`', '` / `': '` separators; string escaping is the identity (no claim involves
characters that `json.dumps` would escape). -/

/-- JSON values: Python dicts are association lists (insertion-ordered, as in
CPython); numbers are integers (no claim involves floats). -/
inductive Json where
  | null
  | bool (b : Bool)
  | num (n : Int)
  | str (s : String)
  | arr (elems : List Json)
  | obj (entries : List (String × Json))

/-- Double-quoted rendering of a JSON string. -/
def Json.quote (s : String) : String := "\"" ++ s ++ "\""

/-- Key order used by `sort_keys=True`: compare rendered entries by key. -/
def Json.keyLE (a b : String × String) : Prop := lexLE a.1.data b.1.data = true

instance : DecidableRel Json.keyLE := fun a b => inferInstanceAs (Decidable (_ = true))

/-- Sort rendered object entries by key (`sort_keys=True`). -/
def Json.sortPairs (l : List (String × String)) : List (String × String) :=
  l.insertionSort Json.keyLE

/-- Render a list of already-serialized object entries with Python's default
separators. -/
def Json.joinPairs : List (String × String) → String
  | [] => ""
  | [(k, v)] => Json.quote k ++ ": " ++ v
  | (k, v) :: kvs => Json.quote k ++ ": " ++ v ++ ", " ++ Json.joinPairs kvs

mutual

/-- `json.dumps(·, sort_keys=True)`.  For an object, every value is rendered
and the rendered entries are emitted in key-sorted order — the same output
`json.dumps` produces by sorting the keys first, since an entry's rendering
does not depend on its position. -/
def Json.dumps : Json → String
  | .null => "null"
  | .bool true => "true"
  | .bool false => "false"
  | .num n => toString n
  | .str s => Json.quote s
  | .arr es => "[" ++ Json.dumpsArr es ++ "]"
  | .obj kvs => "\x7b" ++ Json.joinPairs (Json.sortPairs (Json.dumpsEntries kvs)) ++ "\x7d"

/-- Comma-separated rendering of array elements. -/
def Json.dumpsArr : List Json → String
  | [] => ""
  | [j] => Json.dumps j
  | j :: js => Json.dumps j ++ ", " ++ Json.dumpsArr js

/-- Render each object entry's value, keeping its key. -/
def Json.dumpsEntries : List (String × Json) → List (String × String)
  | [] => []
  | (k, v) :: kvs => (k, Json.dumps v) :: Json.dumpsEntries kvs

end

/-- `ValidationService._serialize_for_verification`
(src/src/blockchain/validation.py lines 177-185):
`json.dumps(data, sort_keys=True).encode('utf-8')`. -/
def Blockchain.ValidationService.serialize_for_verification (data : Json) : String :=
  Json.dumps data

/-! ## src/src — the blockchain-side ValidationService pipeline -/

/-- The `try: ... except Exception: return False` wrapper that encloses the
whole body of each `ValidationService` validator
(src/src/blockchain/validation.py). -/
def pyTryFalse (x : Except PyErr Bool) : Bool :=
  match x with
  | .ok b => b
  | .error _ => false

/-- Oracles for the external `icn_crypto` library and `bytes.fromhex`:
`hexKeyOk h` is whether `keys.PublicKey.from_hex(h)` succeeds, `sigVerify`
is `signatures.verify(message, signature, key)` on the hex-identified key,
and `fromHex` is `bytes.fromhex` (`none` models the `ValueError` raised on a
malformed hex string). -/
structure Blockchain.Oracle where
  hexKeyOk : String → Bool
  sigVerify : String → String → String → Bool
  fromHex : String → Option String

/-- One entry of a blockchain DID document's `publicKey` list
(src/src/identity/identity_service.py).  `id` and `controller` only have
their presence checked, so they are opaque optional values. -/
structure Blockchain.PubKeyEntry where
  id : Option Json
  publicKeyHex : Option String
  controller : Option Json

/-- A blockchain-side DID document: `id` and `publicKey` are the required
dictionary keys; `publicKey`'s value is a list (the `isinstance(..., list)`
branch of the validator is represented by the type). -/
structure Blockchain.DidDoc where
  id : Option String
  publicKey : Option (List Blockchain.PubKeyEntry)

/-- `IdentityService.validate_did_document`
(src/src/identity/identity_service.py lines 63-109): required keys, the
`did:icn:` prefix of `id`, a non-empty `publicKey` list, and per-entry
required attributes plus a parseable hex key.  Its internal `try/except`
blocks make it total. -/
def Blockchain.IdentityService.validate_did_document
    (o : Blockchain.Oracle) (doc : Blockchain.DidDoc) : Bool :=
  match doc.id, doc.publicKey with
  | some did, some pks =>
    if !pyStartsWith did "did:icn:" then false
    else if pks.isEmpty then false
    else pks.all (fun k =>
      k.id.isSome && k.controller.isSome &&
      (match k.publicKeyHex with
       | none => false
       | some h => o.hexKeyOk h))
  | _, _ => false

/-- `Federation.verify_signature` (src/src/federation/federation.py lines
10-40): extract `publicKey[0].publicKeyHex` from the document, parse it, and
verify; every failure (missing key, parse error, library error) is caught and
returned as `False`. -/
def Blockchain.Federation.verify_signature (o : Blockchain.Oracle)
    (message signature : String) (doc : Blockchain.DidDoc) : Bool :=
  match doc.publicKey with
  | none => false
  | some [] => false
  | some (k :: _) =>
    match k.publicKeyHex with
    | none => false
    | some h => if o.hexKeyOk h then o.sigVerify message signature h else false

/-- A blockchain-side transaction dictionary
(src/src/blockchain/validation.py): keys `id`, `signer`, `content`,
`signature`; `id`'s value is only logged, so it is opaque. -/
structure Blockchain.TxDict where
  id : Option Json
  signer : Option String
  content : Option Json
  signature : Option String

/-- `ValidationService._check_required_transaction_fields`
(src/src/blockchain/validation.py lines 159-166): exactly the keys
`["id", "signer", "content", "signature"]` must be present. -/
def Blockchain.ValidationService.check_required_transaction_fields
    (t : Blockchain.TxDict) : Bool :=
  t.id.isSome && t.signer.isSome && t.content.isSome && t.signature.isSome

/-- Body of `ValidationService.validate_transaction`
(src/src/blockchain/validation.py lines 13-57), i.e. the code inside its
`try:`.  The only raise site reachable through the model is
`bytes.fromhex(signature_hex)` (`ValueError`).

Modelled from the spec: `self.identity_service.get_did_document(did)` names a
method that exists nowhere in the repository (the tests mock it); per the
spec's Identity Resolver contract (§4.3) it is the explicit parameter
`resolve`, taking the possibly-absent `.get("signer")` value. -/
def Blockchain.ValidationService.validate_transaction_body
    (o : Blockchain.Oracle) (resolve : Option String → Option Blockchain.DidDoc)
    (t : Blockchain.TxDict) : Except PyErr Bool :=
  if !Blockchain.ValidationService.check_required_transaction_fields t then .ok false
  else match resolve t.signer with
  | none => .ok false
  | some doc =>
    if !Blockchain.IdentityService.validate_did_document o doc then .ok false
    else
      let contentBytes :=
        Blockchain.ValidationService.serialize_for_verification (t.content.getD (.obj []))
      match t.signature with
      | none => .error .typeError
      | some sigHex =>
        match o.fromHex sigHex with
        | none => .error .valueError
        | some sig =>
          if !Blockchain.Federation.verify_signature o contentBytes sig doc then .ok false
          else .ok true

/-- `ValidationService.validate_transaction`: the body under its
`try/except`. -/
def Blockchain.ValidationService.validate_transaction
    (o : Blockchain.Oracle) (resolve : Option String → Option Blockchain.DidDoc)
    (t : Blockchain.TxDict) : Bool :=
  pyTryFalse (Blockchain.ValidationService.validate_transaction_body o resolve t)

/-- A blockchain-side proposal dictionary: keys `proposer`, `blockData`,
`signature` (src/src/blockchain/validation.py lines 112-157). -/
structure Blockchain.ProposalDict where
  proposer : Option String
  blockData : Option Json
  signature : Option String

/-- Body of `ValidationService.validate_proposal` (lines 112-157). -/
def Blockchain.ValidationService.validate_proposal_body
    (o : Blockchain.Oracle) (resolve : Option String → Option Blockchain.DidDoc)
    (p : Blockchain.ProposalDict) : Except PyErr Bool :=
  if !(p.proposer.isSome && p.blockData.isSome && p.signature.isSome) then .ok false
  else match resolve p.proposer with
  | none => .ok false
  | some doc =>
    if !Blockchain.IdentityService.validate_did_document o doc then .ok false
    else
      let blockBytes :=
        Blockchain.ValidationService.serialize_for_verification (p.blockData.getD (.obj []))
      match p.signature with
      | none => .error .typeError
      | some sigHex =>
        match o.fromHex sigHex with
        | none => .error .valueError
        | some sig =>
          if !Blockchain.Federation.verify_signature o blockBytes sig doc then .ok false
          else .ok true

/-- `ValidationService.validate_proposal`: the body under its `try/except`. -/
def Blockchain.ValidationService.validate_proposal
    (o : Blockchain.Oracle) (resolve : Option String → Option Blockchain.DidDoc)
    (p : Blockchain.ProposalDict) : Bool :=
  pyTryFalse (Blockchain.ValidationService.validate_proposal_body o resolve p)

/-- A blockchain-side block dictionary: required keys `id`, `producer`,
`timestamp`, `transactions`, `signature`; `extra` carries any further entries
(e.g. `previousHash`), which participate in serialization via
`block.items()`. -/
structure Blockchain.BlockDict where
  id : Option Json
  producer : Option String
  timestamp : Option Json
  transactions : Option (List Blockchain.TxDict)
  signature : Option String
  extra : List (String × Json)

/-- A transaction dictionary as a JSON value (for serialization inside a
block's `transactions` entry). -/
def Blockchain.TxDict.toJson (t : Blockchain.TxDict) : Json :=
  .obj ((match t.id with | some v => [("id", v)] | none => []) ++
    (match t.signer with | some s => [("signer", Json.str s)] | none => []) ++
    (match t.content with | some c => [("content", c)] | none => []) ++
    (match t.signature with | some s => [("signature", Json.str s)] | none => []))

/-- `{k: v for k, v in block.items() if k != "signature"}`
(src/src/blockchain/validation.py line 88) as a JSON object. -/
def Blockchain.BlockDict.dataJson (b : Blockchain.BlockDict) : Json :=
  .obj ((match b.id with | some v => [("id", v)] | none => []) ++
    (match b.producer with | some s => [("producer", Json.str s)] | none => []) ++
    (match b.timestamp with | some v => [("timestamp", v)] | none => []) ++
    (match b.transactions with
     | some ts => [("transactions", Json.arr (ts.map Blockchain.TxDict.toJson))]
     | none => []) ++
    b.extra)

/-- `ValidationService._check_required_block_fields` (lines 168-175): exactly
the keys `["id", "producer", "timestamp", "transactions", "signature"]`. -/
def Blockchain.ValidationService.check_required_block_fields
    (b : Blockchain.BlockDict) : Bool :=
  b.id.isSome && b.producer.isSome && b.timestamp.isSome &&
    b.transactions.isSome && b.signature.isSome

/-- Body of `ValidationService.validate_block` (lines 59-110).  The contained
transactions are validated with the exception-catching
`validate_transaction`, and the loop's failure log uses
`tx.get('id', 'unknown')`, which cannot raise. -/
def Blockchain.ValidationService.validate_block_body
    (o : Blockchain.Oracle) (resolve : Option String → Option Blockchain.DidDoc)
    (b : Blockchain.BlockDict) : Except PyErr Bool :=
  if !Blockchain.ValidationService.check_required_block_fields b then .ok false
  else match resolve b.producer with
  | none => .ok false
  | some doc =>
    if !Blockchain.IdentityService.validate_did_document o doc then .ok false
    else
      let blockBytes :=
        Blockchain.ValidationService.serialize_for_verification b.dataJson
      match b.signature with
      | none => .error .typeError
      | some sigHex =>
        match o.fromHex sigHex with
        | none => .error .valueError
        | some sig =>
          if !Blockchain.Federation.verify_signature o blockBytes sig doc then .ok false
          else .ok ((b.transactions.getD []).all
            (fun tx => Blockchain.ValidationService.validate_transaction o resolve tx))

/-- `ValidationService.validate_block`: the body under its `try/except`. -/
def Blockchain.ValidationService.validate_block
    (o : Blockchain.Oracle) (resolve : Option String → Option Blockchain.DidDoc)
    (b : Blockchain.BlockDict) : Bool :=
  pyTryFalse (Blockchain.ValidationService.validate_block_body o resolve b)

/-! ## Auxiliary definitions used by the claims -/

/-- The individual service references carried by a `serviceEndpoint` entry
(used to state the spec's "every service reference resolves" condition). -/
def Identity.svcRefList : Identity.SvcRefs → List String
  | .absent => []
  | .one s => [s]
  | .many l => l

/-- Modelled from the spec: `getVerificationKey(document, keyId?) -> bytes |
None` (§4.4) — "returns the first verification method's public key if no id
is given, else the key matching the requested id; strips any multibase prefix
before returning".  The source's `get_public_key` accepts no key id at all;
this definition follows the spec's words and exists to be compared with the
source's behavior. -/
def Identity.getVerificationKey_spec (doc : Identity.DidDocument)
    (keyId : Option String) : Option String :=
  match keyId with
  | none =>
    (doc.verificationMethod.head?.bind (fun m => m.publicKeyMultibase)).map
      Identity.stripMultibase
  | some k =>
    ((doc.verificationMethod.find? (fun m => m.id == some k)).bind
      (fun m => m.publicKeyMultibase)).map Identity.stripMultibase

/-- Strict key order: `keyLE` together with distinct keys.  Antisymmetric, so
two key-sorted lists of entries with no duplicate keys that are permutations
of each other are equal. -/
def Json.keyLT (a b : String × String) : Prop := Json.keyLE a b ∧ a.1 ≠ b.1

/-! ## Concrete fixtures

A small world of DID documents and ledger entities used to evaluate the
pipeline at concrete inputs.  The resolver maps `did:x:1` to a valid document,
`did:x:2` to a document that fails validation (no verification methods),
`did:x:7` to a valid document with two verification methods; everything else
is unresolvable. -/

def Fixtures.vmOk : Identity.VerificationMethod :=
  { id := some "did:x:1#key-1", type := some "Ed25519VerificationKey2018",
    controller := some "did:x:1", publicKeyMultibase := some "zKEY1",
    serviceEndpoint := .absent }

def Fixtures.docOk : Identity.DidDocument :=
  { id := some "did:x:1", verificationMethod := [Fixtures.vmOk], service := [] }

def Fixtures.docNoMethods : Identity.DidDocument :=
  { id := some "did:x:2", verificationMethod := [], service := [] }

def Fixtures.vm7a : Identity.VerificationMethod :=
  { id := some "did:x:7#k1", type := some "Ed25519VerificationKey2018",
    controller := some "did:x:7", publicKeyMultibase := some "zKEY1",
    serviceEndpoint := .absent }

def Fixtures.vm7b : Identity.VerificationMethod :=
  { id := some "did:x:7#k2", type := some "Ed25519VerificationKey2018",
    controller := some "did:x:7", publicKeyMultibase := some "zKEY2",
    serviceEndpoint := .absent }

def Fixtures.doc7 : Identity.DidDocument :=
  { id := some "did:x:7", verificationMethod := [Fixtures.vm7a, Fixtures.vm7b],
    service := [] }

def Fixtures.vm6 : Identity.VerificationMethod :=
  { id := some "did:x:6#k1", type := some "Ed25519VerificationKey2018",
    controller := some "did:elsewhere", publicKeyMultibase := some "zK6",
    serviceEndpoint := .many ["svc-1"] }

def Fixtures.doc6 : Identity.DidDocument :=
  { id := some "did:x:6", verificationMethod := [Fixtures.vm6],
    service := [{ id := some "svc-1" }] }

def Fixtures.resolver : String → Option Identity.DidDocument := fun d =>
  if d = "did:x:1" then some Fixtures.docOk
  else if d = "did:x:2" then some Fixtures.docNoMethods
  else if d = "did:x:7" then some Fixtures.doc7
  else none

def Fixtures.engine0 : Consensus.ConsensusEngine :=
  { pending_transactions := [], pending_proposals := [] }

/-- A transaction whose object lacks the `get_message_for_signing` method. -/
def Fixtures.txNoMsg : Consensus.TxObj :=
  { id := some "tx-a", sender := some "did:x:9", signer := none, content := none,
    signature := some "sig-a", get_message_for_signing := none }

/-- A proposal whose object lacks the `get_message_for_signing` method. -/
def Fixtures.pNoMsg : Consensus.ProposalObj :=
  { id := some "pr-a", proposer := some "did:x:9", signature := some "sig-a",
    transactions := some [], get_message_for_signing := none }

/-- A block whose object lacks the `get_message_for_signing` method. -/
def Fixtures.bNoMsg : Consensus.BlockObj :=
  { height := some 1, producer := some "did:x:9", signature := some "sig-a",
    proposals := some [], get_message_for_signing := none }

/-- A transaction object without an `id` attribute. -/
def Fixtures.txNoId : Consensus.TxObj :=
  { id := none, sender := some "did:x:9", signer := none, content := none,
    signature := some "sig-b", get_message_for_signing := some "msg-b" }

/-- A proposal object without an `id` attribute. -/
def Fixtures.pNoId : Consensus.ProposalObj :=
  { id := none, proposer := some "did:x:9", signature := some "sig-b",
    transactions := some [], get_message_for_signing := some "msg-b" }

/-- A block object without a `height` attribute. -/
def Fixtures.bNoHeight : Consensus.BlockObj :=
  { height := none, producer := some "did:x:9", signature := some "sig-b",
    proposals := some [], get_message_for_signing := some "msg-b" }

/-- Another id-less transaction (it fails format validation, and the failure
log then reads `transaction.id`). -/
def Fixtures.txNoId3 : Consensus.TxObj :=
  { id := none, sender := some "did:c3", signer := none, content := none,
    signature := some "sig-c3", get_message_for_signing := some "msg-c3" }

/-- A well-formed transaction whose signer does not resolve, so validation
returns `False`. -/
def Fixtures.txRejected : Consensus.TxObj :=
  { id := some "tx-r", sender := some "did:unresolved", signer := none,
    content := none, signature := some "sig-r",
    get_message_for_signing := some "msg-r" }

/-- A well-formed proposal whose proposer does not resolve. -/
def Fixtures.pRejected : Consensus.ProposalObj :=
  { id := some "pr-r", proposer := some "did:unresolved",
    signature := some "sig-r", transactions := some [],
    get_message_for_signing := some "msg-r" }

/-- A transaction failing validation (no `sender` attribute, so the format
check rejects it without raising). -/
def Fixtures.txFail4 : Consensus.TxObj :=
  { id := some "tx-f4", sender := none, signer := none, content := none,
    signature := some "sig-f4", get_message_for_signing := some "msg-f4" }

/-- A proposal containing the failing transaction `txFail4`. -/
def Fixtures.pContain4 : Consensus.ProposalObj :=
  { id := some "pr-4", proposer := some "did:x:9", signature := some "sig-4",
    transactions := some [Fixtures.txFail4],
    get_message_for_signing := some "msg-4" }

/-- A block containing `pContain4` but itself lacking
`get_message_for_signing`, so validating it raises. -/
def Fixtures.bCrash4 : Consensus.BlockObj :=
  { height := some 4, producer := some "did:x:9", signature := some "sig-4",
    proposals := some [Fixtures.pContain4], get_message_for_signing := none }

/-- A transaction failing validation (no `sender` attribute). -/
def Fixtures.txIn5 : Consensus.TxObj :=
  { id := some "tx-5", sender := none, signer := none, content := none,
    signature := some "sig-5", get_message_for_signing := some "msg-5" }

/-- A proposal containing the failing transaction `txIn5`. -/
def Fixtures.pIn5 : Consensus.ProposalObj :=
  { id := some "pr-5", proposer := some "did:x:9", signature := some "sig-5",
    transactions := some [Fixtures.txIn5],
    get_message_for_signing := some "msg-5" }

/-- A fully-attributed block containing `pIn5`; its producer does not resolve,
so validating it completes (with `False`) instead of raising. -/
def Fixtures.bOk5 : Consensus.BlockObj :=
  { height := some 5, producer := some "did:x:9", signature := some "sig-5",
    proposals := some [Fixtures.pIn5], get_message_for_signing := some "msg-b5" }

/-- A blockchain-side oracle whose `bytes.fromhex` always raises
`ValueError` (and whose crypto checks succeed). -/
def Fixtures.oracleB : Blockchain.Oracle :=
  { hexKeyOk := fun _ => true, sigVerify := fun _ _ _ => true,
    fromHex := fun _ => none }

def Fixtures.pkB : Blockchain.PubKeyEntry :=
  { id := some .null, publicKeyHex := some "AB12", controller := some .null }

def Fixtures.docB : Blockchain.DidDoc :=
  { id := some "did:icn:a", publicKey := some [Fixtures.pkB] }

def Fixtures.resolverB : Option String → Option Blockchain.DidDoc := fun d =>
  if d = some "did:icn:a" then some Fixtures.docB else none

/-- A blockchain transaction with every required field; with `oracleB` its
validation body raises at `bytes.fromhex`. -/
def Fixtures.txB : Blockchain.TxDict :=
  { id := some .null, signer := some "did:icn:a", content := some (.str "pay"),
    signature := some "ff" }

def Fixtures.pB : Blockchain.ProposalDict :=
  { proposer := some "did:icn:a", blockData := some (.str "bd"),
    signature := some "ff" }

def Fixtures.bB : Blockchain.BlockDict :=
  { id := some .null, producer := some "did:icn:a", timestamp := some (.str "t"),
    transactions := some [], signature := some "ff", extra := [] }

/-- A blockchain transaction dictionary missing its `content` key. -/
def Fixtures.txD9 : Blockchain.TxDict :=
  { id := some .null, signer := some "did:icn:a", content := none,
    signature := some "ff" }

/-- A consensus transaction object carrying `id`, `sender` and `signature`
but neither `signer` nor `content`. -/
def Fixtures.txC9 : Consensus.TxObj :=
  { id := some "t9", sender := some "did:s9", signer := none, content := none,
    signature := some "sg9", get_message_for_signing := none }

/-! ## Order properties of the key comparison -/

/-- `lexLE` is total. -/
theorem lexLE_total : ∀ as bs : List Char, lexLE as bs = true ∨ lexLE bs as = true := by
  intro as
  induction as with
  | nil => intro bs; exact .inl rfl
  | cons a as ih =>
    intro bs
    cases bs with
    | nil => exact .inr rfl
    | cons b bs =>
      rcases Nat.lt_trichotomy a.toNat b.toNat with h | h | h
      · left; simp [lexLE, h]
      · rcases ih bs with hl | hl
        · left; simp [lexLE, h, hl]
        · right; simp [lexLE, h, hl]
      · right; simp [lexLE, h]

/-- `lexLE` is transitive. -/
theorem lexLE_trans : ∀ as bs cs : List Char,
    lexLE as bs = true → lexLE bs cs = true → lexLE as cs = true := by
  intro as
  induction as with
  | nil => intro bs cs _ _; rfl
  | cons a as ih =>
    intro bs cs h1 h2
    cases bs with
    | nil => simp [lexLE] at h1
    | cons b bs =>
      cases cs with
      | nil => simp [lexLE] at h2
      | cons c cs =>
        simp only [lexLE] at h1 h2 ⊢
        split_ifs at h1 h2 ⊢ <;>
          first
          | rfl
          | omega
          | exact ih bs cs h1 h2
          | simp_all

/-- `lexLE` both ways forces equality of the lists. -/
theorem lexLE_antisymm : ∀ as bs : List Char,
    lexLE as bs = true → lexLE bs as = true → as = bs := by
  intro as
  induction as with
  | nil =>
    intro bs h1 h2
    cases bs with
    | nil => rfl
    | cons b bs => simp [lexLE] at h2
  | cons a as ih =>
    intro bs h1 h2
    cases bs with
    | nil => simp [lexLE] at h1
    | cons b bs =>
      simp only [lexLE] at h1 h2
      split_ifs at h1 h2 <;>
        first
        | omega
        | (have hn : a.toNat = b.toNat := by omega
           have he : a = b := Char.ext (UInt32.ext hn)
           have ht : as = bs := ih bs h1 h2
           rw [he, ht])
        | simp_all

instance : IsTotal (String × String) Json.keyLE :=
  ⟨fun a b => lexLE_total a.1.data b.1.data⟩

instance : IsTrans (String × String) Json.keyLE :=
  ⟨fun a b c => lexLE_trans a.1.data b.1.data c.1.data⟩

instance : IsAntisymm (String × String) Json.keyLT :=
  ⟨fun a b h1 h2 =>
    absurd (congrArg String.mk (lexLE_antisymm a.1.data b.1.data h1.1 h2.1)) h1.2⟩

/-- Key-sorting two entry lists that are permutations of each other with
duplicate-free keys gives the same list. -/
theorem Json.sortPairs_eq_of_perm (l1 l2 : List (String × String))
    (hnd : (l1.map Prod.fst).Nodup) (hp : l1.Perm l2) :
    Json.sortPairs l1 = Json.sortPairs l2 := by
  have hperm : (Json.sortPairs l1).Perm (Json.sortPairs l2) :=
    (List.perm_insertionSort _ l1).trans (hp.trans (List.perm_insertionSort _ l2).symm)
  have hnd1 : ((Json.sortPairs l1).map Prod.fst).Nodup :=
    (((List.perm_insertionSort Json.keyLE l1).map Prod.fst).nodup_iff).mpr hnd
  have hnd2 : ((Json.sortPairs l2).map Prod.fst).Nodup :=
    ((hperm.map Prod.fst).nodup_iff).mp hnd1
  have hs1 : List.Sorted Json.keyLT (Json.sortPairs l1) :=
    (List.sorted_insertionSort Json.keyLE l1).and (List.pairwise_map.mp hnd1)
  have hs2 : List.Sorted Json.keyLT (Json.sortPairs l2) :=
    (List.sorted_insertionSort Json.keyLE l2).and (List.pairwise_map.mp hnd2)
  exact List.eq_of_perm_of_sorted hperm hs1 hs2

/-- `Json.dumpsEntries` is a per-entry map. -/
theorem Json.dumpsEntries_eq_map (l : List (String × Json)) :
    Json.dumpsEntries l = l.map (fun p => (p.1, Json.dumps p.2)) := by
  induction l with
  | nil => rfl
  | cons p ps ih => cases p with | mk k v => simp [Json.dumpsEntries, ih]

/-- C8: canonicalization is a function of the logical object, not of field
order — two objects with the same key-value pairs (in any order, keys
duplicate-free) serialize to byte-identical output under
`_serialize_for_verification`. -/
theorem serialize_for_verification_deterministic
    (ea eb : List (String × Json)) (hnd : (ea.map Prod.fst).Nodup)
    (hp : ea.Perm eb) :
    Blockchain.ValidationService.serialize_for_verification (.obj ea) =
      Blockchain.ValidationService.serialize_for_verification (.obj eb) := by
  show Json.dumps (.obj ea) = Json.dumps (.obj eb)
  rw [Json.dumps, Json.dumps]
  have hmap : Json.sortPairs (Json.dumpsEntries ea) = Json.sortPairs (Json.dumpsEntries eb) := by
    apply Json.sortPairs_eq_of_perm
    · rw [Json.dumpsEntries_eq_map, List.map_map]
      exact hnd
    · rw [Json.dumpsEntries_eq_map, Json.dumpsEntries_eq_map]
      exact hp.map _
  rw [hmap]

/-- Witness for C8: re-ordering the fields of a concrete payload leaves the
canonical serialization unchanged. -/
theorem serialize_for_verification_deterministic_witness :
    Blockchain.ValidationService.serialize_for_verification
        (.obj [("recipient", .str "user123"), ("amount", .num 100)]) =
      Blockchain.ValidationService.serialize_for_verification
        (.obj [("amount", .num 100), ("recipient", .str "user123")]) :=
  serialize_for_verification_deterministic _ _ (by decide)
    (List.Perm.swap ("amount", Json.num 100) ("recipient", Json.str "user123") [])

/-! ## Helper lemmas about the identity and consensus pipeline -/

/-- `IdentityService.verify_signature` can return `False` or raise, but it can
never return `True`: the success path calls the nonexistent
`SignatureVerifier.verify_signature` attribute. -/
theorem Identity.verify_signature_ne_ok_true
    (resolve : String → Option Identity.DidDocument) (did message signature : String) :
    Identity.IdentityService.verify_signature resolve did message signature ≠ .ok true := by
  unfold Identity.IdentityService.verify_signature
  cases Identity.IdentityService.get_public_key resolve did with
  | none => simp
  | some k => by_cases h : k = "" <;> simp [h]

/-- `Validator.validate_transaction` never returns `True`. -/
theorem Consensus.validate_transaction_ne_ok_true
    (resolve : String → Option Identity.DidDocument) (t : Consensus.TxObj) :
    Consensus.Validator.validate_transaction resolve t ≠ .ok true := by
  unfold Consensus.Validator.validate_transaction
  by_cases hf : !Consensus.Validator.validate_transaction_format t
  · simp [hf]
  · rw [if_neg hf]
    cases t.sender with
    | none => simp
    | some sender =>
      cases t.get_message_for_signing with
      | none => simp
      | some message =>
        cases t.signature with
        | none => simp
        | some sig =>
          cases hv : Identity.IdentityService.verify_signature resolve sender message sig with
          | error e => simp [hv]
          | ok ok =>
            cases ok with
            | false => simp [hv]
            | true =>
              exact absurd hv
                (Identity.verify_signature_ne_ok_true resolve sender message sig)

/-- `Validator.validate_proposal` never returns `True`. -/
theorem Consensus.validate_proposal_ne_ok_true
    (resolve : String → Option Identity.DidDocument) (p : Consensus.ProposalObj) :
    Consensus.Validator.validate_proposal resolve p ≠ .ok true := by
  unfold Consensus.Validator.validate_proposal
  by_cases hf : !Consensus.Validator.validate_proposal_format p
  · simp [hf]
  · rw [if_neg hf]
    cases p.proposer with
    | none => simp
    | some proposer =>
      cases p.get_message_for_signing with
      | none => simp
      | some message =>
        cases p.signature with
        | none => simp
        | some sig =>
          cases hv : Identity.IdentityService.verify_signature resolve proposer message sig with
          | error e => simp [hv]
          | ok ok =>
            cases ok with
            | false => simp [hv]
            | true =>
              exact absurd hv
                (Identity.verify_signature_ne_ok_true resolve proposer message sig)

/-- `Validator.validate_block` never returns `True`. -/
theorem Consensus.validate_block_ne_ok_true
    (resolve : String → Option Identity.DidDocument) (b : Consensus.BlockObj) :
    Consensus.Validator.validate_block resolve b ≠ .ok true := by
  unfold Consensus.Validator.validate_block
  by_cases hf : !Consensus.Validator.validate_block_format b
  · simp [hf]
  · rw [if_neg hf]
    cases b.producer with
    | none => simp
    | some producer =>
      cases b.get_message_for_signing with
      | none => simp
      | some message =>
        cases b.signature with
        | none => simp
        | some sig =>
          cases hv : Identity.IdentityService.verify_signature resolve producer message sig with
          | error e => simp [hv]
          | ok ok =>
            cases ok with
            | false => simp [hv]
            | true =>
              exact absurd hv
                (Identity.verify_signature_ne_ok_true resolve producer message sig)

/-- A document that passes `validate_did_document` has every verification
method complete (in particular each carries a public key). -/
theorem Identity.validate_true_all_fields (doc : Identity.DidDocument)
    (h : Identity.IdentityService.validate_did_document doc = true) :
    doc.verificationMethod.all Identity.vmFieldsOk = true := by
  unfold Identity.IdentityService.validate_did_document at h
  split_ifs at h with h1 h2 h3 <;>
    first
    | exact Bool.noConfusion h
    | (cases hx : doc.verificationMethod.all Identity.vmFieldsOk with
       | true => rfl
       | false => exact absurd (by rw [hx]; rfl) h3)

/-! ## Claims about the identity service -/

/-- C1 (code bug): whenever DID resolution or document validation fails the
call returns `False`, but as soon as a public key is found
`IdentityService.verify_signature` raises `AttributeError` from
`SignatureVerifier.verify_signature` — a method the imported verifier class
does not define — instead of returning a boolean dispatched on the key's
algorithm type. -/
theorem identity_verify_signature_divergence :
    Identity.IdentityService.verify_signature Fixtures.resolver "did:x:9" "msg" "sig"
        = .ok false ∧
    Identity.IdentityService.verify_signature Fixtures.resolver "did:x:2" "msg" "sig"
        = .ok false ∧
    Identity.IdentityService.verify_signature Fixtures.resolver "did:x:1" "msg" "sig"
        = .error .attributeError :=
  ⟨rfl, rfl, rfl⟩

/-- C5: `SignatureVerifier.verify` with an algorithm tag outside the supported
set (`ed25519` and `rsa`, case-insensitively) returns `false`; it is a total
function, so it cannot raise. -/
theorem signature_verifier_unknown_algorithm_false (o : Identity.CryptoOracle)
    (message signature publicKey keyType : String)
    (hed : pyLower keyType ≠ "ed25519") (hrsa : pyLower keyType ≠ "rsa") :
    Identity.SignatureVerifier.verify o message signature publicKey keyType = false := by
  unfold Identity.SignatureVerifier.verify
  rw [if_neg hed, if_neg hrsa]

/-- Witness for C5 at the tag `"unknown"`. -/
theorem signature_verifier_unknown_algorithm_false_witness :
    Identity.SignatureVerifier.verify
      ⟨fun _ _ _ => true, fun _ _ _ => true⟩ "msg" "sig" "key" "unknown" = false :=
  signature_verifier_unknown_algorithm_false _ "msg" "sig" "key" "unknown"
    (by decide) (by decide)

/-- C6: a DID document with a non-empty id, at least one verification method,
complete verification methods and resolvable service references validates,
with no condition relating the document id to the methods' controllers (a
mismatch is only logged). -/
theorem validate_did_document_controller_mismatch_ok
    (doc : Identity.DidDocument) (i : String)
    (hid : doc.id = some i) (hne : i ≠ "")
    (hvm : doc.verificationMethod ≠ [])
    (hfields : ∀ m ∈ doc.verificationMethod,
      m.id.isSome ∧ m.type.isSome ∧ m.controller.isSome ∧ m.publicKeyMultibase.isSome)
    (hsvc : ∀ m ∈ doc.verificationMethod, ∀ r ∈ Identity.svcRefList m.serviceEndpoint,
      (some r) ∈ doc.service.map (fun s => s.id)) :
    Identity.IdentityService.validate_did_document doc = true := by
  have hall : doc.verificationMethod.all Identity.vmFieldsOk = true := by
    rw [List.all_eq_true]
    intro m hm
    obtain ⟨h1, h2, h3, h4⟩ := hfields m hm
    simp [Identity.vmFieldsOk, h1, h2, h3, h4]
  have hsvcall : doc.verificationMethod.all
      (fun m => Identity.svcRefsOk (doc.service.map (fun s => s.id)) m.serviceEndpoint)
        = true := by
    rw [List.all_eq_true]
    intro m hm
    cases hse : m.serviceEndpoint with
    | absent => rfl
    | one s =>
      simp only [Identity.svcRefsOk]
      by_cases hs : s = ""
      · rw [if_pos hs]
      · rw [if_neg hs]
        exact List.elem_iff.mpr (hsvc m hm s (by rw [hse]; exact List.mem_singleton.mpr rfl))
    | many l =>
      simp only [Identity.svcRefsOk]
      rw [List.all_eq_true]
      intro r hr
      exact List.elem_iff.mpr (hsvc m hm r (by rw [hse]; exact hr))
  unfold Identity.IdentityService.validate_did_document
  rw [if_neg (show ¬(doc.id.getD "" = "") by simp [hid, hne])]
  rw [if_neg (show ¬(doc.verificationMethod.isEmpty = true) by
    simp [List.isEmpty_iff, hvm])]
  rw [if_neg (show ¬((!(doc.verificationMethod.all Identity.vmFieldsOk)) = true) by
    rw [hall]; simp)]
  exact hsvcall

/-- Witness for C6: a concrete document whose single verification method's
controller differs from the document id still validates. -/
theorem validate_did_document_controller_mismatch_ok_witness :
    (∀ m ∈ Fixtures.doc6.verificationMethod, m.controller ≠ Fixtures.doc6.id) ∧
    Identity.IdentityService.validate_did_document Fixtures.doc6 = true :=
  ⟨by decide,
   validate_did_document_controller_mismatch_ok Fixtures.doc6 "did:x:6" rfl
     (by decide) (by decide) (by decide) (by decide)⟩

/-! ## Claims about validator totality and the consensus engine -/

/-- C2 counterexample: each consensus `Validator` entry point propagates an
`AttributeError` (here: the entity lacks `get_message_for_signing`) instead of
returning a boolean. -/
theorem consensus_validators_can_raise :
    Consensus.Validator.validate_transaction Fixtures.resolver Fixtures.txNoMsg
        = .error .attributeError ∧
    Consensus.Validator.validate_proposal Fixtures.resolver Fixtures.pNoMsg
        = .error .attributeError ∧
    Consensus.Validator.validate_block Fixtures.resolver Fixtures.bNoMsg
        = .error .attributeError :=
  ⟨rfl, rfl, rfl⟩

/-- C2 amended: the blockchain `ValidationService` validators are total — each
returns `true` or `false` on every input, and any exception raised inside a
validator body is caught at the entry and reported as `false`.  (The consensus
`Validator`s have no such guard; see the counterexample.) -/
theorem validation_service_validators_total
    (o : Blockchain.Oracle) (resolve : Option String → Option Blockchain.DidDoc)
    (t : Blockchain.TxDict) (p : Blockchain.ProposalDict) (b : Blockchain.BlockDict) :
    (Blockchain.ValidationService.validate_transaction o resolve t = true ∨
      Blockchain.ValidationService.validate_transaction o resolve t = false) ∧
    (Blockchain.ValidationService.validate_proposal o resolve p = true ∨
      Blockchain.ValidationService.validate_proposal o resolve p = false) ∧
    (Blockchain.ValidationService.validate_block o resolve b = true ∨
      Blockchain.ValidationService.validate_block o resolve b = false) ∧
    (∀ e, Blockchain.ValidationService.validate_transaction_body o resolve t = .error e →
      Blockchain.ValidationService.validate_transaction o resolve t = false) ∧
    (∀ e, Blockchain.ValidationService.validate_proposal_body o resolve p = .error e →
      Blockchain.ValidationService.validate_proposal o resolve p = false) ∧
    (∀ e, Blockchain.ValidationService.validate_block_body o resolve b = .error e →
      Blockchain.ValidationService.validate_block o resolve b = false) := by
  refine ⟨?_, ?_, ?_, ?_, ?_, ?_⟩
  · cases h : Blockchain.ValidationService.validate_transaction o resolve t with
    | true => exact .inl rfl
    | false => exact .inr rfl
  · cases h : Blockchain.ValidationService.validate_proposal o resolve p with
    | true => exact .inl rfl
    | false => exact .inr rfl
  · cases h : Blockchain.ValidationService.validate_block o resolve b with
    | true => exact .inl rfl
    | false => exact .inr rfl
  · intro e he
    unfold Blockchain.ValidationService.validate_transaction
    rw [he]
    rfl
  · intro e he
    unfold Blockchain.ValidationService.validate_proposal
    rw [he]
    rfl
  · intro e he
    unfold Blockchain.ValidationService.validate_block
    rw [he]
    rfl

/-- Witness for the C2 amendment: concrete entities whose validator bodies
raise `ValueError` at `bytes.fromhex`, all reported as `false`. -/
theorem validation_service_validators_total_witness :
    Blockchain.ValidationService.validate_transaction Fixtures.oracleB Fixtures.resolverB
        Fixtures.txB = false ∧
    Blockchain.ValidationService.validate_proposal Fixtures.oracleB Fixtures.resolverB
        Fixtures.pB = false ∧
    Blockchain.ValidationService.validate_block Fixtures.oracleB Fixtures.resolverB
        Fixtures.bB = false := by
  obtain ⟨-, -, -, h4, h5, h6⟩ := validation_service_validators_total
    Fixtures.oracleB Fixtures.resolverB Fixtures.txB Fixtures.pB Fixtures.bB
  exact ⟨h4 .valueError rfl, h5 .valueError rfl, h6 .valueError rfl⟩

/-- C3 counterexample: for an id-less transaction, validation returns `False`
but `add_transaction` raises `AttributeError` (from the failure log's
`transaction.id` read) instead of returning `false` with the pool
unchanged. -/
theorem add_transaction_raises_instead_of_false :
    Consensus.Validator.validate_transaction Fixtures.resolver Fixtures.txNoId3 = .ok false ∧
    Consensus.ConsensusEngine.add_transaction Fixtures.resolver Fixtures.engine0 Fixtures.txNoId3
        = .error .attributeError :=
  ⟨rfl, rfl⟩

/-- C3 amended: when `add_transaction` returns normally it returns either
`true` with exactly the transaction appended, or `false` with the engine
unchanged; the `false` outcome is reached exactly when validation returns
`False` and the transaction has an `id` attribute — an id-less rejected
transaction makes `add_transaction` raise instead.  `add_proposal` satisfies
the same contract over the proposal pool. -/
theorem add_transaction_add_proposal_contract
    (resolve : String → Option Identity.DidDocument) (e : Consensus.ConsensusEngine)
    (t : Consensus.TxObj) (p : Consensus.ProposalObj) :
    (∀ b e', Consensus.ConsensusEngine.add_transaction resolve e t = .ok (b, e') →
      (b = true ∧ e' = { e with pending_transactions := e.pending_transactions ++ [t] }) ∨
      (b = false ∧ e' = e)) ∧
    (Consensus.Validator.validate_transaction resolve t = .ok false → t.id.isSome →
      Consensus.ConsensusEngine.add_transaction resolve e t = .ok (false, e)) ∧
    (Consensus.Validator.validate_transaction resolve t = .ok false → t.id = none →
      Consensus.ConsensusEngine.add_transaction resolve e t = .error .attributeError) ∧
    (∀ b e', Consensus.ConsensusEngine.add_proposal resolve e p = .ok (b, e') →
      (b = true ∧ e' = { e with pending_proposals := e.pending_proposals ++ [p] }) ∨
      (b = false ∧ e' = e)) ∧
    (Consensus.Validator.validate_proposal resolve p = .ok false → p.id.isSome →
      Consensus.ConsensusEngine.add_proposal resolve e p = .ok (false, e)) ∧
    (Consensus.Validator.validate_proposal resolve p = .ok false → p.id = none →
      Consensus.ConsensusEngine.add_proposal resolve e p = .error .attributeError) := by
  refine ⟨?_, ?_, ?_, ?_, ?_, ?_⟩
  · intro b e' h
    unfold Consensus.ConsensusEngine.add_transaction at h
    cases hv : Consensus.Validator.validate_transaction resolve t with
    | error err => rw [hv] at h; exact absurd h (by simp)
    | ok ok =>
      rw [hv] at h
      cases ok with
      | true =>
        cases hid : t.id with
        | none => rw [hid] at h; exact absurd h (by simp)
        | some x =>
          rw [hid] at h
          simp only [Except.ok.injEq, Prod.mk.injEq] at h
          exact .inl ⟨h.1.symm, h.2.symm⟩
      | false =>
        cases hid : t.id with
        | none => rw [hid] at h; exact absurd h (by simp)
        | some x =>
          rw [hid] at h
          simp only [Except.ok.injEq, Prod.mk.injEq] at h
          exact .inr ⟨h.1.symm, h.2.symm⟩
  · intro hv hid
    obtain ⟨x, hx⟩ := Option.isSome_iff_exists.mp hid
    unfold Consensus.ConsensusEngine.add_transaction
    rw [hv, hx]
  · intro hv hid
    unfold Consensus.ConsensusEngine.add_transaction
    rw [hv, hid]
  · intro b e' h
    unfold Consensus.ConsensusEngine.add_proposal at h
    cases hv : Consensus.Validator.validate_proposal resolve p with
    | error err => rw [hv] at h; exact absurd h (by simp)
    | ok ok =>
      rw [hv] at h
      cases ok with
      | true =>
        cases hid : p.id with
        | none => rw [hid] at h; exact absurd h (by simp)
        | some x =>
          rw [hid] at h
          simp only [Except.ok.injEq, Prod.mk.injEq] at h
          exact .inl ⟨h.1.symm, h.2.symm⟩
      | false =>
        cases hid : p.id with
        | none => rw [hid] at h; exact absurd h (by simp)
        | some x =>
          rw [hid] at h
          simp only [Except.ok.injEq, Prod.mk.injEq] at h
          exact .inr ⟨h.1.symm, h.2.symm⟩
  · intro hv hid
    obtain ⟨x, hx⟩ := Option.isSome_iff_exists.mp hid
    unfold Consensus.ConsensusEngine.add_proposal
    rw [hv, hx]
  · intro hv hid
    unfold Consensus.ConsensusEngine.add_proposal
    rw [hv, hid]

/-- Witness for the C3 amendment: a rejected transaction and proposal with
`id` attributes are refused with the engine unchanged. -/
theorem add_transaction_add_proposal_contract_witness :
    Consensus.ConsensusEngine.add_transaction Fixtures.resolver Fixtures.engine0
        Fixtures.txRejected = .ok (false, Fixtures.engine0) ∧
    Consensus.ConsensusEngine.add_proposal Fixtures.resolver Fixtures.engine0
        Fixtures.pRejected = .ok (false, Fixtures.engine0) :=
  ⟨(add_transaction_add_proposal_contract Fixtures.resolver Fixtures.engine0
      Fixtures.txRejected Fixtures.pRejected).2.1 rfl rfl,
   (add_transaction_add_proposal_contract Fixtures.resolver Fixtures.engine0
      Fixtures.txRejected Fixtures.pRejected).2.2.2.2.1 rfl rfl⟩

/-- C4 counterexample: a block whose object lacks `get_message_for_signing`
contains a proposal with a transaction that fails `validate_transaction`, yet
`validate_block` raises `AttributeError` instead of returning `false`. -/
theorem block_with_failing_transaction_can_raise :
    Consensus.Validator.validate_transaction Fixtures.resolver Fixtures.txFail4 = .ok false ∧
    Fixtures.txFail4 ∈ (Fixtures.pContain4.transactions.getD []) ∧
    Fixtures.pContain4 ∈ (Fixtures.bCrash4.proposals.getD []) ∧
    Consensus.Validator.validate_block Fixtures.resolver Fixtures.bCrash4
        = .error .attributeError :=
  ⟨rfl, List.mem_singleton.mpr rfl, List.mem_singleton.mpr rfl, rfl⟩

/-- C4 amended: when a transaction inside one of a block's proposals fails
validation, that proposal is never accepted (`validate_proposal` cannot return
`True`) and whenever `validate_block` completes without raising it returns
`false`; an exception raised mid-validation can pre-empt the `false` return. -/
theorem failing_nested_transaction_rejects_block
    (resolve : String → Option Identity.DidDocument)
    (b : Consensus.BlockObj) (p : Consensus.ProposalObj) (t : Consensus.TxObj) (res : Bool)
    (hp : p ∈ b.proposals.getD []) (ht : t ∈ p.transactions.getD [])
    (hfail : Consensus.Validator.validate_transaction resolve t = .ok false) :
    Consensus.Validator.validate_proposal resolve p ≠ .ok true ∧
    (Consensus.Validator.validate_block resolve b = .ok res → res = false) := by
  refine ⟨Consensus.validate_proposal_ne_ok_true resolve p, fun hb => ?_⟩
  cases res with
  | false => rfl
  | true => exact absurd hb (Consensus.validate_block_ne_ok_true resolve b)

/-- Witness for the C4 amendment: the proposal containing the failing
transaction `txIn5` inside the fully-attributed block `bOk5` is not
accepted. -/
theorem failing_nested_transaction_rejects_block_witness :
    Consensus.Validator.validate_proposal Fixtures.resolver Fixtures.pIn5 ≠ .ok true :=
  (failing_nested_transaction_rejects_block Fixtures.resolver Fixtures.bOk5 Fixtures.pIn5
    Fixtures.txIn5 false (List.mem_singleton.mpr rfl) (List.mem_singleton.mpr rfl) rfl).1

/-! ## Claims about key extraction and required fields -/

/-- C7 counterexample: the spec's key-id-sensitive `getVerificationKey`
disagrees with the source's `get_public_key` on a document with two
verification methods — the source function has no key-id parameter and always
returns the first key. -/
theorem get_public_key_ignores_key_id :
    Identity.IdentityService.get_public_key Fixtures.resolver "did:x:7"
      ≠ Identity.getVerificationKey_spec Fixtures.doc7 (some "did:x:7#k2") := by
  decide

/-- C7 amended: `get_public_key` (which takes only a DID) returns `None` when
resolution or document validation fails, and otherwise returns the public key
of the first verification method with the multibase `z` prefix stripped; no
key-id selection exists. -/
theorem get_public_key_contract
    (resolve : String → Option Identity.DidDocument) (did : String) :
    (resolve did = none → Identity.IdentityService.get_public_key resolve did = none) ∧
    (∀ doc, resolve did = some doc →
      Identity.IdentityService.validate_did_document doc = false →
      Identity.IdentityService.get_public_key resolve did = none) ∧
    (∀ doc m ms, resolve did = some doc →
      Identity.IdentityService.validate_did_document doc = true →
      doc.verificationMethod = m :: ms →
      Identity.IdentityService.get_public_key resolve did
        = m.publicKeyMultibase.map Identity.stripMultibase) := by
  refine ⟨?_, ?_, ?_⟩
  · intro h
    unfold Identity.IdentityService.get_public_key
    rw [h]
  · intro doc h hval
    unfold Identity.IdentityService.get_public_key
    rw [h]
    show (if Identity.IdentityService.validate_did_document doc = true then
      Identity.firstKey doc.verificationMethod else none) = none
    rw [if_neg (by simp [hval])]
  · intro doc m ms h hval hm
    have hall := Identity.validate_true_all_fields doc hval
    unfold Identity.IdentityService.get_public_key
    rw [h]
    show (if Identity.IdentityService.validate_did_document doc = true then
      Identity.firstKey doc.verificationMethod else none)
        = m.publicKeyMultibase.map Identity.stripMultibase
    rw [if_pos hval, hm]
    cases hpk : m.publicKeyMultibase with
    | some k => simp [Identity.firstKey, hpk]
    | none =>
      exfalso
      rw [hm] at hall
      have hmf := List.all_eq_true.mp hall m (List.mem_cons_self m ms)
      simp [Identity.vmFieldsOk, hpk] at hmf

/-- Witness for the C7 amendment: on the two-method document the first
method's key is returned, `z` prefix stripped. -/
theorem get_public_key_contract_witness :
    Identity.IdentityService.get_public_key Fixtures.resolver "did:x:7" = some "KEY1" :=
  ((get_public_key_contract Fixtures.resolver "did:x:7").2.2 Fixtures.doc7
    Fixtures.vm7a [Fixtures.vm7b] rfl (by decide) rfl).trans (by decide)

/-- C9 counterexample: the consensus format check accepts a transaction object
that has neither a `signer` nor a `content` attribute (it checks `id`,
`sender`, `signature` instead of the claimed four fields). -/
theorem consensus_format_check_not_the_four_fields :
    Consensus.Validator.validate_transaction_format Fixtures.txC9 = true ∧
    Fixtures.txC9.signer = none ∧ Fixtures.txC9.content = none :=
  ⟨rfl, rfl, rfl⟩

/-- C9 amended: the blockchain `ValidationService` required-field check
requires exactly `id`, `signer`, `content`, `signature`, and its
`validate_transaction` returns `false` when any of the four is missing; the
consensus `Validator`'s format check instead requires exactly the attributes
`id`, `sender` and `signature`. -/
theorem required_transaction_fields_contract
    (o : Blockchain.Oracle) (resolve : Option String → Option Blockchain.DidDoc) :
    (∀ t : Blockchain.TxDict,
      Blockchain.ValidationService.check_required_transaction_fields t = true ↔
        (t.id.isSome ∧ t.signer.isSome ∧ t.content.isSome ∧ t.signature.isSome)) ∧
    (∀ t : Blockchain.TxDict,
      (t.id = none ∨ t.signer = none ∨ t.content = none ∨ t.signature = none) →
      Blockchain.ValidationService.validate_transaction o resolve t = false) ∧
    (∀ t : Consensus.TxObj,
      Consensus.Validator.validate_transaction_format t = true ↔
        (t.id.isSome ∧ t.sender.isSome ∧ t.signature.isSome)) := by
  refine ⟨?_, ?_, ?_⟩
  · intro t
    simp [Blockchain.ValidationService.check_required_transaction_fields,
      Bool.and_eq_true, and_assoc]
  · intro t hmiss
    have hchk : Blockchain.ValidationService.check_required_transaction_fields t = false := by
      unfold Blockchain.ValidationService.check_required_transaction_fields
      rcases hmiss with h | h | h | h <;> simp [h]
    unfold Blockchain.ValidationService.validate_transaction
      Blockchain.ValidationService.validate_transaction_body
    rw [hchk]
    rfl
  · intro t
    simp [Consensus.Validator.validate_transaction_format, Bool.and_eq_true, and_assoc]

/-- Witness for the C9 amendment: a blockchain transaction missing `content`
is rejected. -/
theorem required_transaction_fields_contract_witness :
    Blockchain.ValidationService.validate_transaction Fixtures.oracleB Fixtures.resolverB
        Fixtures.txD9 = false :=
  (required_transaction_fields_contract Fixtures.oracleB Fixtures.resolverB).2.1
    Fixtures.txD9 (.inr (.inr (.inl rfl)))

/-- C10: when validation fails on an entity lacking the attribute the failure
log interpolates, `add_transaction`, `add_proposal` and `add_block` raise
`AttributeError` instead of returning `false`: an id-less transaction, an
id-less proposal and a height-less block. -/
theorem engine_failure_logging_crashes :
    Consensus.ConsensusEngine.add_transaction Fixtures.resolver Fixtures.engine0
        Fixtures.txNoId = .error .attributeError ∧
    Consensus.ConsensusEngine.add_proposal Fixtures.resolver Fixtures.engine0
        Fixtures.pNoId = .error .attributeError ∧
    Consensus.ConsensusEngine.add_block Fixtures.resolver Fixtures.bNoHeight
        = .error .attributeError :=
  ⟨rfl, rfl, rfl⟩
